import Mathlib

/-!
Verification of the `made-activity-tracker` relevance pipeline
(`amplifier_module_hooks_activity_tracker`): the embedding cache
(`embedding_cache.py`), the embedding generation client
(`embedding_generator.py`) and the two-phase duplicate/relationship
analyzer (`analyzer.py`).

Modelling conventions (shallow embedding of the Python source):

* Vectors are `List ℚ` (exact rationals idealise the numpy `float32`
  arithmetic; every rational is finite, so the `np.isfinite` check of
  `_validate_embedding` is intrinsically satisfied).
* Fallible external services (OpenAI embedding endpoint, OpenAI chat
  completion endpoint, the `_get_cached_embedding` helper) are modelled
  as oracle fields of an environment record.  An oracle returning
  `Except.error ()` models a raised exception at that call site; an
  oracle returning `Option` models a call that the source already
  converts to `None` internally.
* Python code that can raise is embedded as a function into
  `Except Unit α`; Python code that cannot raise (for well-typed
  arguments) is embedded as a total function.
* Python dictionaries with a fixed key set are embedded as structures;
  a key that may be absent becomes an `Option` field, and a key that
  may be absent, present-with-None, or present-with-a-string becomes
  `Option (Option String)` (`none` = key absent, `some none` = key
  present holding Python `None`, `some (some s)` = key present holding
  the string `s`).
-/

namespace ActivityTracker

/-! ## Data model -/

/-- An open work item as consumed by `ActivityAnalyzer`: the analyzer
reads exactly the attributes `id`, `title` and `description`. -/
structure Issue where
  id : String
  title : String
  description : String
deriving DecidableEq, Repr

/-- Session context dictionary built by `hooks.ActivityTrackerHooks._capture_context`
and consumed by `find_related_work`.  The `git_status` key is three-state
(`hooks.py` initialises it to Python `None` and only overwrites it when
`git status` succeeds); `recent_files` is always initialised to a list. -/
structure Context where
  prompt : Option String
  working_dir : Option String
  git_status : Option (Option String)
  recent_files : List String
deriving DecidableEq, Repr

/-- A transient candidate produced by the pre-filter phase:
the dict `{"issue": issue, "similarity": similarity}` of `analyzer.py`. -/
structure Candidate where
  issue : Issue
  similarity : ℝ

/-- One element of the list returned by `find_related_work`: the dict
`{"issue": ..., "confidence": ..., "reasoning": ..., "relationship_type": ...}`
built by `_parse_llm_result`. -/
structure RelatedWork where
  issue : Issue
  confidence : ℚ
  reasoning : String
  relationship_type : String
deriving DecidableEq, Repr

/-- One entry of the `"related"` array of a parsed reasoning-service
response.  Every field is optional: `item.get` is used for each. -/
structure LLMEntry where
  issue_id : Option String
  confidence : Option ℚ
  reasoning : Option String
  relationship_type : Option String
deriving DecidableEq, Repr

/-- An element of the `"related"` array: the source skips entries that
are not dictionaries (`if not isinstance(item, dict): continue`). -/
inductive LLMItem where
  | notDict : LLMItem
  | entry (e : LLMEntry) : LLMItem
deriving DecidableEq, Repr

/-- The `"related"` value of a parsed reasoning-service response:
either not a list (`_parse_llm_result` logs and returns `[]`) or a
list of items. -/
inductive RelatedField where
  | notList : RelatedField
  | items (l : List LLMItem) : RelatedField
deriving DecidableEq, Repr

/-- A successfully JSON-parsed reasoning-service response (a Python
dict).  `related = none` models the `"related"` key being absent, in
which case `result.get("related", [])` supplies `[]`.  A top-level
value that is not a dict makes `result.get` raise inside the guarded
block of `_llm_reasoning` and is therefore modelled, together with
call and JSON failures, by the oracle returning `Except.error ()`. -/
structure ParsedResult where
  related : Option RelatedField
deriving DecidableEq, Repr

/-- The reasoning-service request built by `_build_analysis_prompt`.
The prompt string interpolates the context and the candidate list (ids,
titles, truncated descriptions, similarity scores); we keep the request
structured rather than rendering the text, which preserves exactly the
information the prompt carries. -/
structure LLMRequest where
  context : Context
  candidates : List Candidate

/-- External-world oracle for one `find_related_work` invocation.

* `ctxEmbedding` models `EmbeddingGenerator.generate` applied to the
  formatted context text: the source converts every failure (blank
  text, missing client, transport error, invalid vector) to `None`,
  so the oracle is `Option`-valued and keyed by the text it is given.
* `issueEmbedding` models `_get_cached_embedding issue.id issue_text`:
  it may raise (e.g. the lazily constructed `EmbeddingCache` can throw
  from `_init_db`), hence `Except`; `ok none` is a failed generation.
* `llmAvailable` models the truthiness of `self.llm_client`.
* `llmResponse` models the chat-completion call plus
  `sanitize_llm_response` plus `json.loads` for a given request:
  `error` is a raised exception inside the guarded block (API failure,
  timeout, unparsable JSON, or a non-dict top level making
  `result.get` raise); `ok` is a parsed dict. -/
structure AnalyzerEnv where
  ctxEmbedding : String → Option (List ℚ)
  issueEmbedding : String → String → Except Unit (Option (List ℚ))
  llmAvailable : Bool
  llmResponse : LLMRequest → Except Unit ParsedResult

/-- The analyzer configuration dictionary, restricted to the key the
embedded code reads: `config.get("similarity_threshold", 0.7)`. -/
structure Config where
  similarity_threshold : Option ℚ
deriving DecidableEq, Repr

/-- Embeds `config.get("similarity_threshold", 0.7)`. -/
def Config.threshold (cfg : Config) : ℚ :=
  cfg.similarity_threshold.getD (7 / 10)

/-! ## SimilarityMath: `ActivityAnalyzer._cosine_similarity` -/

/-- Embeds `np.dot` on two equal-length 1-D vectors (sum of pointwise products). -/
def dotQ (a b : List ℚ) : ℚ :=
  (List.zipWith (· * ·) a b).sum

/-- Embeds `ActivityAnalyzer._cosine_similarity`, over exact rationals with a
real-valued result.  `np.linalg.norm v = sqrt (v · v)`.  The source
wraps the whole computation in `try/except` returning `0.0`; for
well-typed vectors the only reachable exception is `np.dot` raising on
mismatched lengths, which the first branch models.  The zero-norm
guard and the final clamp `max(0.0, min(1.0, similarity))` are as in
the source. -/
noncomputable def cosine_similarity (v1 v2 : List ℚ) : ℝ :=
  if v1.length ≠ v2.length then 0
  else
    if Real.sqrt ((dotQ v1 v1 : ℚ) : ℝ) = 0 ∨ Real.sqrt ((dotQ v2 v2 : ℚ) : ℝ) = 0 then 0
    else
      max 0 (min 1 (((dotQ v1 v2 : ℚ) : ℝ) /
        (Real.sqrt ((dotQ v1 v1 : ℚ) : ℝ) * Real.sqrt ((dotQ v2 v2 : ℚ) : ℝ))))

/-! ## EmbeddingStore: `EmbeddingCache` (embedding_cache.py)

The SQLite table `embeddings` has `issue_id` as primary key and stores
`(embedding, content_hash, model, created_at, accessed_at)`; we model
the table as a map from `issue_id` to the stored row, dropping the two
timestamp columns (and `get`'s `accessed_at` touch), which no claim
concerns. -/

/-- A row of the `embeddings` table (timestamps omitted). -/
structure CacheEntry where
  embedding : List ℚ
  content_hash : String
  model : String
deriving DecidableEq, Repr

/-- The cache state: SQLite table keyed by the primary key `issue_id`. -/
def CacheState := String → Option CacheEntry

namespace EmbeddingCache

/-- Embeds `EmbeddingCache.get`: `SELECT embedding FROM embeddings WHERE
issue_id = ? AND content_hash = ?`; any fingerprint mismatch or absent
row is a miss (`None`). -/
def get (st : CacheState) (issue_id content_hash : String) : Option (List ℚ) :=
  match st issue_id with
  | none => none
  | some e => if e.content_hash = content_hash then some e.embedding else none

/-- Embeds `EmbeddingCache.set`: `INSERT OR REPLACE INTO embeddings ...` —
an unconditional upsert on the primary key. -/
def set (st : CacheState) (issue_id : String) (embedding : List ℚ)
    (model content_hash : String) : CacheState :=
  fun id' => if id' = issue_id then some ⟨embedding, content_hash, model⟩ else st id'

end EmbeddingCache

/-! ## EmbeddingClient: `EmbeddingGenerator.generate_batch` -/

/-- Oracle for one `generate_batch` call: `clientAvailable` is the
truthiness of the lazily constructed OpenAI client; `batchResponse`
models `client.embeddings.create(model=..., input=valid_texts)` — it
may raise, and on success yields `response.data` as raw vectors. -/
structure GeneratorEnv where
  clientAvailable : Bool
  batchResponse : List String → Except Unit (List (List ℚ))

/-- Python truthiness of `t and t.strip()` is `false` exactly when `t`
is empty or consists of whitespace only. -/
def pyBlank (t : String) : Bool :=
  t.toList.all Char.isWhitespace

/-- Embeds `EmbeddingGenerator._validate_embedding`: the vector (always an
`ndarray` here) must be non-empty; the `np.isfinite` conjunct is
intrinsically true of rationals. -/
def validate_embedding (e : List ℚ) : Bool :=
  !e.isEmpty

/-- Embeds `EmbeddingGenerator.generate_batch`.  Mirrors the source branch
for branch: empty input → `[]`; all inputs blank → `[None] * len(texts)`;
client unavailable → `[None] * len(texts)`; raised API call →
`[None] * len(texts)`; otherwise one output per item of
`response.data`, each validated.  Note the source iterates over the
response, not over `texts`: filtered-out blank entries get no
placeholder in the success branch. -/
def generate_batch (env : GeneratorEnv) (texts : List String) : List (Option (List ℚ)) :=
  if texts.isEmpty then []
  else
    let valid_texts := texts.filter (fun t => !pyBlank t)
    if valid_texts.isEmpty then List.replicate texts.length none
    else if !env.clientAvailable then List.replicate texts.length none
    else
      match env.batchResponse valid_texts with
      | .error _ => List.replicate texts.length none
      | .ok data => data.map (fun e => if validate_embedding e then some e else none)

/-! ## RelevanceAnalyzer: `ActivityAnalyzer` (analyzer.py) -/

/-- Embeds `f"{issue.title} {issue.description}"` in `_two_phase_analysis`. -/
def issueText (i : Issue) : String :=
  i.title ++ " " ++ i.description

/-- Embeds `ActivityAnalyzer._format_context_for_embedding`.  `parts` starts
with `context.get("prompt", "")`; `git_status` is appended only when
truthy (a present, non-empty string); `recent_files` (first 5) only
when the list is non-empty. -/
def format_context_for_embedding (ctx : Context) : String :=
  let parts := [ctx.prompt.getD ""]
  let parts := parts ++
    (match ctx.git_status with
     | some (some s) => if s = "" then [] else ["Git changes: " ++ (s.take 200)]
     | _ => [])
  let parts := parts ++
    (if ctx.recent_files.isEmpty then []
     else ["Recent files: " ++ String.intercalate ", " (ctx.recent_files.take 5)])
  String.intercalate " " parts

/-- Embeds `ActivityAnalyzer._build_analysis_prompt`.  The returned request
carries the context and candidate list that the prompt text
interpolates.  The build *raises* (`TypeError: 'NoneType' object is not
subscriptable`) when the `git_status` key is present holding Python
`None`: `context.get('git_status', 'None')` then returns `None` (the
default `'None'` string applies only when the key is absent) and the
source slices it with `[:200]`. -/
def build_analysis_prompt (ctx : Context) (candidates : List Candidate) :
    Except Unit LLMRequest :=
  if ctx.git_status = some none then .error ()
  else .ok ⟨ctx, candidates⟩

/-- The dict comprehension `{c["issue"].id: c["issue"] for c in candidates}`
followed by lookup: for duplicate ids the later candidate wins. -/
def issue_lookup (candidates : List Candidate) (iid : String) : Option Issue :=
  (candidates.reverse.find? (fun c => c.issue.id == iid)).map Candidate.issue

/-- The per-entry body of the `_parse_llm_result` loop: skip non-dict
items, skip a missing or falsy (`""`) `issue_id`, skip an `issue_id`
matching no supplied candidate; otherwise build the result dict with
defaults `0.0`, `""` and `"related"`. -/
def parse_item (candidates : List Candidate) : LLMItem → Option RelatedWork
  | .notDict => none
  | .entry e =>
    match e.issue_id with
    | none => none
    | some iid =>
      if iid = "" then none
      else
        match issue_lookup candidates iid with
        | none => none
        | some iss =>
          some ⟨iss, e.confidence.getD 0, e.reasoning.getD "", e.relationship_type.getD "related"⟩

/-- Embeds `ActivityAnalyzer._parse_llm_result`.  `result.get("related", [])`
defaults an absent key to `[]`; a non-list value is logged and `[]`
returned; otherwise the loop appends one result per accepted entry in
order. -/
def parse_llm_result (result : ParsedResult) (candidates : List Candidate) :
    List RelatedWork :=
  match result.related with
  | none => []
  | some .notList => []
  | some (.items l) => l.filterMap (parse_item candidates)

/-- Embeds `ActivityAnalyzer._llm_reasoning`.  The client check precedes the
prompt build; the prompt build itself is *outside* the `try`, so its
exception propagates; the completion call, sanitisation, JSON parse
and `_parse_llm_result` are inside the `try`, whose handler returns
`[]`. -/
def llm_reasoning (env : AnalyzerEnv) (ctx : Context) (candidates : List Candidate) :
    Except Unit (List RelatedWork) :=
  if env.llmAvailable then
    match build_analysis_prompt ctx candidates with
    | .error e => .error e
    | .ok req =>
      match env.llmResponse req with
      | .error _ => .ok []
      | .ok result => .ok (parse_llm_result result candidates)
  else .ok []

/-- Embeds `ActivityAnalyzer._llm_only_analysis`: every issue becomes a
candidate with placeholder similarity `1.0`. -/
def llm_only_analysis (env : AnalyzerEnv) (ctx : Context) (open_issues : List Issue) :
    Except Unit (List RelatedWork) :=
  if open_issues.isEmpty then .ok []
  else llm_reasoning env ctx (open_issues.map (fun i => ⟨i, 1⟩))

/-- The candidate-collection loop of `_two_phase_analysis`: for each
issue, `_get_cached_embedding` (exceptions are caught per issue and
the issue dropped); an issue with an embedding is kept iff its cosine
similarity with the context embedding strictly exceeds the threshold. -/
noncomputable def prefilter (cfg : Config) (env : AnalyzerEnv)
    (ctxEmb : List ℚ) (open_issues : List Issue) : List Candidate :=
  open_issues.filterMap (fun issue =>
    match env.issueEmbedding issue.id (issueText issue) with
    | .error _ => none
    | .ok none => none
    | .ok (some emb) =>
      if cosine_similarity ctxEmb emb > (cfg.threshold : ℝ) then
        some ⟨issue, cosine_similarity ctxEmb emb⟩
      else none)

/-- The comparison under `candidates.sort(key=lambda x: x["similarity"],
reverse=True)`: descending by similarity. -/
def simGE (a b : Candidate) : Prop :=
  b.similarity ≤ a.similarity

noncomputable instance : DecidableRel simGE :=
  fun a b => show Decidable (b.similarity ≤ a.similarity) from inferInstance

instance : IsTotal Candidate simGE :=
  ⟨fun a b => le_total b.similarity a.similarity⟩

instance : IsTrans Candidate simGE :=
  ⟨fun _ _ _ h h' => le_trans h' h⟩

/-- Embeds `candidates.sort(key=..., reverse=True)` then `candidates[:10]`
(Python's sort is stable; insertion sort under `simGE` is the same
stable descending order). -/
noncomputable def top_candidates (cfg : Config) (env : AnalyzerEnv)
    (ctxEmb : List ℚ) (open_issues : List Issue) : List Candidate :=
  (List.insertionSort simGE (prefilter cfg env ctxEmb open_issues)).take 10

/-- Embeds `ActivityAnalyzer._two_phase_analysis`.  A failed context embedding
or an empty retained set falls back to `_llm_only_analysis` on the
first 20 issues; otherwise phase 2 reranks the top 10 candidates. -/
noncomputable def two_phase_analysis (cfg : Config) (env : AnalyzerEnv)
    (ctx : Context) (open_issues : List Issue) : Except Unit (List RelatedWork) :=
  match env.ctxEmbedding (format_context_for_embedding ctx) with
  | none => llm_only_analysis env ctx (open_issues.take 20)
  | some ctxEmb =>
    if (prefilter cfg env ctxEmb open_issues).isEmpty then
      llm_only_analysis env ctx (open_issues.take 20)
    else
      llm_reasoning env ctx (top_candidates cfg env ctxEmb open_issues)

/-- Embeds `ActivityAnalyzer.find_related_work`: empty candidate set returns
`[]` at once; otherwise `_two_phase_analysis` under a `try` whose
handler re-runs `_llm_only_analysis` on the first 20 issues — the
handler body itself is unguarded, so an exception there propagates to
the caller. -/
noncomputable def find_related_work (cfg : Config) (env : AnalyzerEnv)
    (ctx : Context) (open_issues : List Issue) : Except Unit (List RelatedWork) :=
  if open_issues.isEmpty then .ok []
  else
    match two_phase_analysis cfg env ctx open_issues with
    | .ok r => .ok r
    | .error _ => llm_only_analysis env ctx (open_issues.take 20)

/-! ## RelevanceAnalyzer: `analyze_session_work` -/

/-- One transcript message dict; `msg.get("role", "unknown")` and
`msg.get("content", "")` are the only reads. -/
structure Message where
  role : Option String
  content : Option String
deriving DecidableEq, Repr

/-- A `new_ideas` entry: passed through unexamined by the analyzer. -/
structure Idea where
  title : Option String
  description : Option String
  suggested_priority : Option ℤ
deriving DecidableEq, Repr

/-- The parsed top-level session-analysis response when it is a dict;
each field is read with `result.get(...)` and so optional. -/
structure SessionParsed where
  completed : Option Bool
  summary : Option String
  new_ideas : Option (List Idea)
deriving DecidableEq, Repr

/-- The JSON-parsed session response: `isinstance(result, dict)` is
checked explicitly, so a non-dict parse is a distinct branch. -/
inductive SessionLLM where
  | notDict : SessionLLM
  | obj (p : SessionParsed) : SessionLLM
deriving DecidableEq, Repr

/-- Oracle for `analyze_session_work`: `llmResponse` models the
completion call plus JSON parse on the last-30-messages request
(`error` = raised call or unparsable JSON). -/
structure SessionEnv where
  llmAvailable : Bool
  llmResponse : List Message → Except Unit SessionLLM

/-- A value of the returned session-analysis dict. -/
inductive SessionValue where
  | bool (b : Bool) : SessionValue
  | str (s : String) : SessionValue
  | ideas (l : List Idea) : SessionValue
deriving DecidableEq, Repr

/-- Embeds `ActivityAnalyzer.analyze_session_work`, with the returned Python
dict embedded as an association list so that its exact key set is part
of the model.  Branch for branch: empty transcript; unavailable
client; raised call/parse (`except` handler); non-dict top level;
success with per-field defaults.  `messages[-30:]` is
`drop (length - 30)`. -/
def analyze_session_work (env : SessionEnv) (messages : List Message) :
    List (String × SessionValue) :=
  if messages.isEmpty then
    [("completed", .bool false), ("summary", .str "Empty session"), ("new_ideas", .ideas [])]
  else if !env.llmAvailable then
    [("completed", .bool false), ("summary", .str "Analysis unavailable"), ("new_ideas", .ideas [])]
  else
    match env.llmResponse (messages.drop (messages.length - 30)) with
    | .error _ =>
      [("completed", .bool false), ("summary", .str "Analysis error"), ("new_ideas", .ideas [])]
    | .ok .notDict =>
      [("completed", .bool false), ("summary", .str "Analysis failed"), ("new_ideas", .ideas [])]
    | .ok (.obj p) =>
      [("completed", .bool (p.completed.getD false)),
       ("summary", .str (p.summary.getD "No summary available")),
       ("new_ideas", .ideas (p.new_ideas.getD []))]

/-! ## Concrete fixtures used by counterexamples and witnesses -/

/-- A sample open work item. -/
def issueA : Issue := ⟨"I1", "add lexer", "tokenize the input"⟩

/-- A context whose `git_status` key is absent. -/
def ctxPlain : Context := ⟨some "improve lexer", some "/repo", none, []⟩

/-- The context shape `hooks._capture_context` produces when `git status`
is unavailable: the `git_status` key is present holding Python `None`. -/
def ctxGitNone : Context := ⟨some "improve lexer", some "/repo", some none, []⟩

/-- Environment: context embedding fails, issue embeddings absent,
reasoning client available and answering with an empty related list. -/
def envNoEmb : AnalyzerEnv :=
  ⟨fun _ => none, fun _ _ => .ok none, true, fun _ => .ok ⟨some (.items [])⟩⟩

/-- Environment: context embedding succeeds with `[1]`, issue
embeddings absent, reasoning client available. -/
def envCtxEmb : AnalyzerEnv :=
  ⟨fun _ => some [1], fun _ _ => .ok none, true, fun _ => .ok ⟨some (.items [])⟩⟩

/-- A response entry carrying a `relationship_type` outside the four
canonical values. -/
def entryOdd : LLMEntry := ⟨some "I1", some (9 / 10), some "same work", some "synergy"⟩

/-- Environment whose reasoning service answers with `entryOdd`. -/
def envOdd : AnalyzerEnv :=
  ⟨fun _ => none, fun _ _ => .ok none, true, fun _ => .ok ⟨some (.items [.entry entryOdd])⟩⟩

/-- A response entry carrying the canonical `duplicate` type. -/
def entryDup : LLMEntry := ⟨some "I1", some (9 / 10), some "same work", some "duplicate"⟩

/-- Environment whose reasoning service answers with `entryDup`. -/
def envDup : AnalyzerEnv :=
  ⟨fun _ => none, fun _ _ => .ok none, true, fun _ => .ok ⟨some (.items [.entry entryDup])⟩⟩

/-- A healthy embedding service returning `[1]` for every input text. -/
def envGen : GeneratorEnv := ⟨true, fun ts => .ok (ts.map (fun _ => [1]))⟩

/-- A single candidate list for parse tests. -/
def candsW : List Candidate := [⟨issueA, 1⟩]

/-- Response items: one matching entry, one unmatched id, one non-dict
item, one entry with a missing id. -/
def itemsW : List LLMItem :=
  [.entry ⟨some "I1", some (1 / 2), some "dup", none⟩,
   .entry ⟨some "ZZ", none, none, none⟩,
   .notDict,
   .entry ⟨none, none, none, none⟩]

/-- A parsed response holding `itemsW`. -/
def resW : ParsedResult := ⟨some (.items itemsW)⟩

/-- The decidable counterpart of "this response item survives the
`_parse_llm_result` loop": a dict entry whose `issue_id` is present,
truthy, and equal to the id of some supplied candidate. -/
def entry_matches (candidates : List Candidate) : LLMItem → Bool
  | .notDict => false
  | .entry e =>
    match e.issue_id with
    | none => false
    | some iid => !(iid == "") && candidates.any (fun c => c.issue.id == iid)

end ActivityTracker

namespace ActivityTracker

/-! ## Theorems -/

/-- CLAIM C5 — Cache round-trip: from any starting table, `set(id, vec,
model, fp)` followed by `get(id, fp)` returns exactly `vec`, and
`get(id, fp')` for any `fp' ≠ fp` is a miss. -/
theorem cache_round_trip (st : CacheState) (issue_id : String) (vec : List ℚ)
    (model fp fp' : String) :
    EmbeddingCache.get (EmbeddingCache.set st issue_id vec model fp) issue_id fp = some vec
    ∧ (fp' ≠ fp →
        EmbeddingCache.get (EmbeddingCache.set st issue_id vec model fp) issue_id fp' = none) := by
  constructor
  · simp [EmbeddingCache.get, EmbeddingCache.set]
  · intro hne
    simp [EmbeddingCache.get, EmbeddingCache.set]
    exact fun h => absurd h.symm hne

/-- Witness for `cache_round_trip` at concrete values. -/
theorem cache_round_trip_witness :
    EmbeddingCache.get (EmbeddingCache.set (fun _ => none) "a" [1] "m" "h1") "a" "h2" = none :=
  (cache_round_trip (fun _ => none) "a" [1] "m" "h1" "h2").2 (by decide)

/-- CLAIM C6 — `_cosine_similarity` always lands in `[0, 1]`, and a
zero-norm argument (on either side) forces the result `0`.  The
function is total by construction (the source catches every exception
and returns `0.0`), so no exception is modelled. -/
theorem cosine_similarity_range_and_zero (v1 v2 : List ℚ) :
    (0 ≤ cosine_similarity v1 v2 ∧ cosine_similarity v1 v2 ≤ 1)
    ∧ (Real.sqrt ((dotQ v1 v1 : ℚ) : ℝ) = 0 ∨ Real.sqrt ((dotQ v2 v2 : ℚ) : ℝ) = 0 →
        cosine_similarity v1 v2 = 0) := by
  unfold cosine_similarity
  split
  · exact ⟨⟨le_refl 0, zero_le_one⟩, fun _ => rfl⟩
  · split
    · exact ⟨⟨le_refl 0, zero_le_one⟩, fun _ => rfl⟩
    · rename_i hnz
      exact ⟨⟨le_max_left 0 _, max_le zero_le_one (min_le_left 1 _)⟩,
        fun hz => absurd hz hnz⟩

/-- Witness for `cosine_similarity_range_and_zero`: the zero vector
against `[3, 4]` yields exactly `0`. -/
theorem cosine_similarity_range_and_zero_witness :
    cosine_similarity [0, 0] [3, 4] = 0 :=
  (cosine_similarity_range_and_zero [0, 0] [3, 4]).2
    (Or.inl (by norm_num [dotQ, Real.sqrt_zero]))

/-- CLAIM C9 — `analyze_session_work` on an empty transcript returns
exactly `{completed: false, summary: "Empty session", new_ideas: []}`;
the result is the same for every environment, i.e. no external call
can influence it. -/
theorem analyze_session_work_empty (env : SessionEnv) :
    analyze_session_work env [] =
      [("completed", .bool false), ("summary", .str "Empty session"),
       ("new_ideas", .ideas [])] :=
  rfl

/-- CLAIM C10 — every return path of `analyze_session_work` (empty
transcript, unavailable client, raised call/parse, non-dict top level,
success) yields a dict whose key list is exactly
`completed, summary, new_ideas`. -/
theorem analyze_session_work_keys (env : SessionEnv) (messages : List Message) :
    (analyze_session_work env messages).map Prod.fst =
      ["completed", "summary", "new_ideas"] := by
  unfold analyze_session_work
  split
  · rfl
  · split
    · rfl
    · split <;> rfl

/-- CLAIM C1 — failing-input evaluation: with the default context shape
built by `hooks._capture_context` outside a git repository
(`git_status` present holding `None`), one open issue, and an
initialised reasoning client, `find_related_work` propagates an
exception (Python: `TypeError: 'NoneType' object is not subscriptable`
from `_build_analysis_prompt`, re-raised from the unguarded fallback in
the `except` handler) instead of returning a list. -/
theorem find_related_work_git_status_none_error :
    find_related_work ⟨none⟩ envNoEmb ctxGitNone [issueA] = .error () := rfl

/-- CLAIM C2 — counterexample: with a healthy client and a service
returning one vector per submitted text, `generate_batch ["a", ""]`
returns a single-element list — not a list of the input's length with
`none` at the blank position. -/
theorem generate_batch_length_counterexample :
    (generate_batch envGen ["a", ""]).length ≠ (["a", ""] : List String).length := by
  decide

/-- CLAIM C2 (amended) — on a successful batch call the output is one
entry per item of the service response, in response order (each
invalid vector mapped to `none`); blank inputs are filtered out before
the call and no placeholder is reinserted for them, so the output
length is the response length, not `texts.length`. -/
theorem generate_batch_success_shape (env : GeneratorEnv) (texts : List String)
    (data : List (List ℚ))
    (hclient : env.clientAvailable = true)
    (hvalid : texts.filter (fun t => !pyBlank t) ≠ [])
    (hresp : env.batchResponse (texts.filter (fun t => !pyBlank t)) = .ok data) :
    generate_batch env texts =
      data.map (fun e => if validate_embedding e then some e else none)
    ∧ (generate_batch env texts).length = data.length := by
  have h1 : texts.isEmpty = false := by
    cases texts with
    | nil => simp at hvalid
    | cons a l => rfl
  have h2 : (texts.filter (fun t => !pyBlank t)).isEmpty = false := by
    cases hf : texts.filter (fun t => !pyBlank t) with
    | nil => exact absurd hf hvalid
    | cons a l => rfl
  have hmain : generate_batch env texts =
      data.map (fun e => if validate_embedding e then some e else none) := by
    simp only [generate_batch, h1, h2, hclient, hresp, Bool.not_true,
      Bool.false_eq_true, if_false]
  exact ⟨hmain, by rw [hmain, List.length_map]⟩

/-- Witness for `generate_batch_success_shape` at a concrete mixed
blank/non-blank input. -/
theorem generate_batch_success_shape_witness :
    generate_batch envGen ["x", " "] = [some [1]] := by
  rw [(generate_batch_success_shape envGen ["x", " "] [[1]] rfl (by decide) rfl).1]
  decide

/-- CLAIM C3 — for a successfully embedded context: an issue whose
embedding is available is retained by the pre-filter iff its cosine
similarity with the context embedding strictly exceeds the configured
threshold (default `0.7`); the set handed to the rerank phase is the
retained candidates sorted by similarity descending, truncated to at
most `10`. -/
theorem two_phase_prefilter_spec (cfg : Config) (env : AnalyzerEnv) (ctx : Context)
    (open_issues : List Issue) (ctxEmb : List ℚ)
    (h : env.ctxEmbedding (format_context_for_embedding ctx) = some ctxEmb) :
    (∀ issue ∈ open_issues, ∀ emb,
        env.issueEmbedding issue.id (issueText issue) = .ok (some emb) →
        (issue ∈ (prefilter cfg env ctxEmb open_issues).map Candidate.issue ↔
          cosine_similarity ctxEmb emb > (cfg.threshold : ℝ)))
    ∧ List.Perm (List.insertionSort simGE (prefilter cfg env ctxEmb open_issues))
        (prefilter cfg env ctxEmb open_issues)
    ∧ List.Sorted simGE (top_candidates cfg env ctxEmb open_issues)
    ∧ top_candidates cfg env ctxEmb open_issues =
        (List.insertionSort simGE (prefilter cfg env ctxEmb open_issues)).take 10
    ∧ (top_candidates cfg env ctxEmb open_issues).length ≤ 10
    ∧ (∀ c ∈ top_candidates cfg env ctxEmb open_issues, c ∈ prefilter cfg env ctxEmb open_issues)
    ∧ (prefilter cfg env ctxEmb open_issues ≠ [] →
        two_phase_analysis cfg env ctx open_issues =
          llm_reasoning env ctx (top_candidates cfg env ctxEmb open_issues))
    ∧ (cfg.similarity_threshold = none → cfg.threshold = 7 / 10) := by
  refine ⟨?_, List.perm_insertionSort simGE _, ?_, rfl, ?_, ?_, ?_, ?_⟩
  · intro issue hmem emb hemb
    constructor
    · intro hin
      rcases List.mem_map.mp hin with ⟨c, hc, hci⟩
      rcases List.mem_filterMap.mp hc with ⟨iss, hiss, hf⟩
      cases heq : env.issueEmbedding iss.id (issueText iss) with
      | error e => rw [heq] at hf; simp at hf
      | ok o =>
        cases o with
        | none => rw [heq] at hf; simp at hf
        | some emb' =>
          rw [heq] at hf
          dsimp only at hf
          split at hf
          · rename_i hgt
            have hcis : c.issue = iss := by cases hf; rfl
            have hissue : iss = issue := by rw [← hci, hcis]
            rw [hissue] at heq
            rw [hemb] at heq
            have hembeq : emb' = emb := by
              injection heq with h'
              injection h' with h''
              exact h''.symm
            rw [← hembeq]
            exact hgt
          · exact absurd hf (by simp)
    · intro hgt
      refine List.mem_map.mpr ⟨⟨issue, cosine_similarity ctxEmb emb⟩, ?_, rfl⟩
      refine List.mem_filterMap.mpr ⟨issue, hmem, ?_⟩
      rw [hemb]
      dsimp only
      rw [if_pos hgt]
  · exact List.Pairwise.sublist (List.take_sublist 10 _)
      (List.sorted_insertionSort simGE _)
  · rw [top_candidates, List.length_take]
    exact min_le_left 10 _
  · intro c hc
    exact (List.perm_insertionSort simGE _).subset (List.take_subset 10 _ hc)
  · intro hne
    have hie : (prefilter cfg env ctxEmb open_issues).isEmpty = false := by
      cases hp : prefilter cfg env ctxEmb open_issues with
      | nil => exact absurd hp hne
      | cons a l => rfl
    unfold two_phase_analysis
    rw [h]
    dsimp only
    rw [hie]
    rfl
  · intro h0
    simp [Config.threshold, h0]

/-- Witness for `two_phase_prefilter_spec` at a concrete environment. -/
theorem two_phase_prefilter_spec_witness :
    (top_candidates ⟨none⟩ envCtxEmb [1] [issueA]).length ≤ 10 :=
  (two_phase_prefilter_spec ⟨none⟩ envCtxEmb ctxPlain [issueA] [1] rfl).2.2.2.2.1

/-- CLAIM C4 — when the context embedding succeeded but the pre-filter
retained nothing, `find_related_work` does not return `[]` at once: it
runs the reasoning phase over the first 20 original issues, each with
placeholder similarity `1.0` (this equation holds whether or not that
reasoning call itself raises, because the `except` fallback rebuilds
the same call). -/
theorem find_related_work_empty_prefilter_fallback (cfg : Config) (env : AnalyzerEnv)
    (ctx : Context) (open_issues : List Issue) (ctxEmb : List ℚ)
    (h : env.ctxEmbedding (format_context_for_embedding ctx) = some ctxEmb)
    (hpre : prefilter cfg env ctxEmb open_issues = [])
    (hne : open_issues ≠ []) :
    find_related_work cfg env ctx open_issues =
      llm_reasoning env ctx ((open_issues.take 20).map (fun i => ⟨i, 1⟩)) := by
  have hie : open_issues.isEmpty = false := by
    cases open_issues with
    | nil => exact absurd rfl hne
    | cons a l => rfl
  have htke : (open_issues.take 20).isEmpty = false := by
    cases open_issues with
    | nil => exact absurd rfl hne
    | cons a l => rfl
  have h3 : llm_only_analysis env ctx (open_issues.take 20) =
      llm_reasoning env ctx ((open_issues.take 20).map (fun i => ⟨i, 1⟩)) := by
    unfold llm_only_analysis
    rw [htke]
    rfl
  have h2 : two_phase_analysis cfg env ctx open_issues =
      llm_only_analysis env ctx (open_issues.take 20) := by
    unfold two_phase_analysis
    rw [h]
    dsimp only
    rw [hpre]
    rfl
  unfold find_related_work
  rw [hie]
  simp only [Bool.false_eq_true, if_false]
  rw [h2, h3]
  cases hr : llm_reasoning env ctx ((open_issues.take 20).map (fun i => ⟨i, 1⟩)) with
  | ok r => rfl
  | error e => rfl

/-- Witness for `find_related_work_empty_prefilter_fallback`: a single
candidate without an available embedding leaves the retained set empty
and the pipeline falls through to the reasoning phase. -/
theorem find_related_work_empty_prefilter_fallback_witness :
    find_related_work ⟨none⟩ envCtxEmb ctxPlain [issueA] =
      llm_reasoning envCtxEmb ctxPlain (([issueA].take 20).map (fun i => ⟨i, 1⟩)) :=
  find_related_work_empty_prefilter_fallback ⟨none⟩ envCtxEmb ctxPlain [issueA] [1]
    rfl rfl (by decide)

/-- Helper: every result of `_parse_llm_result` takes its
`relationship_type` verbatim from some response entry, defaulting to
`"related"` only when the field is absent. -/
theorem parse_llm_result_rel_type (result : ParsedResult) (cands : List Candidate) :
    ∀ r ∈ parse_llm_result result cands, ∃ items e,
      result.related = some (.items items) ∧ LLMItem.entry e ∈ items ∧
      r.relationship_type = e.relationship_type.getD "related" := by
  intro r hr
  obtain ⟨rel⟩ := result
  cases rel with
  | none => simp [parse_llm_result] at hr
  | some rf =>
    cases rf with
    | notList => simp [parse_llm_result] at hr
    | items l =>
      rw [parse_llm_result] at hr
      rcases List.mem_filterMap.mp hr with ⟨it, hit, hpi⟩
      cases it with
      | notDict => simp [parse_item] at hpi
      | entry e =>
        refine ⟨l, e, rfl, hit, ?_⟩
        cases hiid : e.issue_id with
        | none => simp [parse_item, hiid] at hpi
        | some iid =>
          simp only [parse_item, hiid] at hpi
          split at hpi
          · simp at hpi
          · cases hlk : issue_lookup cands iid with
            | none => rw [hlk] at hpi; simp at hpi
            | some iss =>
              rw [hlk] at hpi
              cases hpi
              rfl

/-- Helper: a normal return of `_llm_reasoning` contains only results
whose `relationship_type` stems from the parsed reasoning-service
response as in `parse_llm_result_rel_type`. -/
theorem llm_reasoning_rel_type (env : AnalyzerEnv) (ctx : Context)
    (cands : List Candidate) (res : List RelatedWork)
    (hok : llm_reasoning env ctx cands = .ok res) :
    ∀ r ∈ res, ∃ req result items e,
      env.llmResponse req = .ok result ∧
      result.related = some (.items items) ∧ LLMItem.entry e ∈ items ∧
      r.relationship_type = e.relationship_type.getD "related" := by
  intro r hr
  rw [llm_reasoning] at hok
  split at hok
  · cases hbp : build_analysis_prompt ctx cands with
    | error e => rw [hbp] at hok; simp at hok
    | ok req =>
      rw [hbp] at hok
      dsimp only at hok
      cases hresp : env.llmResponse req with
      | error e =>
        rw [hresp] at hok
        cases hok
        simp at hr
      | ok result =>
        rw [hresp] at hok
        cases hok
        obtain ⟨items, e, h1, h2, h3⟩ := parse_llm_result_rel_type result cands r hr
        exact ⟨req, result, items, e, hresp, h1, h2, h3⟩
  · cases hok
    simp at hr

/-- Helper: the same for `_llm_only_analysis`. -/
theorem llm_only_rel_type (env : AnalyzerEnv) (ctx : Context)
    (issues : List Issue) (res : List RelatedWork)
    (hok : llm_only_analysis env ctx issues = .ok res) :
    ∀ r ∈ res, ∃ req result items e,
      env.llmResponse req = .ok result ∧
      result.related = some (.items items) ∧ LLMItem.entry e ∈ items ∧
      r.relationship_type = e.relationship_type.getD "related" := by
  rw [llm_only_analysis] at hok
  split at hok
  · cases hok
    intro r hr
    simp at hr
  · exact llm_reasoning_rel_type env ctx _ res hok

/-- CLAIM C7 — counterexample: the parser does not validate
`relationship_type`; a reasoning-service entry carrying the value
`"synergy"` flows into the result of `find_related_work` unchanged,
although `"synergy"` is none of the four documented values. -/
theorem find_related_work_relationship_passthrough :
    find_related_work ⟨none⟩ envOdd ctxPlain [issueA] =
        .ok [⟨issueA, 9 / 10, "same work", "synergy"⟩]
    ∧ ("synergy" : String) ∉
        (["duplicate", "blocker", "collaboration", "related"] : List String) := by
  exact ⟨rfl, by decide⟩

/-- CLAIM C7 (amended) — `relationship_type` is copied verbatim from
the response entry when present and defaults to `"related"` when
absent; hence whenever the reasoning service only ever emits the three
instructed values (or omits the field), every result of
`find_related_work` carries one of the four documented values. -/
theorem find_related_work_relationship_types (cfg : Config) (env : AnalyzerEnv)
    (ctx : Context) (open_issues : List Issue) (res : List RelatedWork)
    (hok : find_related_work cfg env ctx open_issues = .ok res)
    (hresp : ∀ req result, env.llmResponse req = .ok result →
      ∀ items, result.related = some (.items items) →
      ∀ e, LLMItem.entry e ∈ items →
        e.relationship_type = none ∨ e.relationship_type = some "duplicate" ∨
        e.relationship_type = some "blocker" ∨ e.relationship_type = some "collaboration") :
    ∀ r ∈ res, r.relationship_type ∈
      (["duplicate", "blocker", "collaboration", "related"] : List String) := by
  have hstep : ∀ r ∈ res, ∃ req result items e,
      env.llmResponse req = .ok result ∧
      result.related = some (.items items) ∧ LLMItem.entry e ∈ items ∧
      r.relationship_type = e.relationship_type.getD "related" := by
    rw [find_related_work] at hok
    split at hok
    · cases hok
      intro r hr
      simp at hr
    · cases htp : two_phase_analysis cfg env ctx open_issues with
      | error e =>
        rw [htp] at hok
        exact llm_only_rel_type env ctx _ res hok
      | ok r0 =>
        rw [htp] at hok
        dsimp only at hok
        cases hok
        rw [two_phase_analysis] at htp
        cases hce : env.ctxEmbedding (format_context_for_embedding ctx) with
        | none =>
          rw [hce] at htp
          exact llm_only_rel_type env ctx _ res htp
        | some ctxEmb =>
          rw [hce] at htp
          dsimp only at htp
          split at htp
          · exact llm_only_rel_type env ctx _ res htp
          · exact llm_reasoning_rel_type env ctx _ res htp
  intro r hr
  obtain ⟨req, result, items, e, h1, h2, h3, h4⟩ := hstep r hr
  rcases hresp req result h1 items h2 e h3 with h5 | h5 | h5 | h5 <;>
    simp [h4, h5]

/-- Witness for `find_related_work_relationship_types` with a service
that answers with a `duplicate` entry. -/
theorem find_related_work_relationship_types_witness :
    (⟨issueA, 9 / 10, "same work", "duplicate"⟩ : RelatedWork).relationship_type ∈
      (["duplicate", "blocker", "collaboration", "related"] : List String) := by
  refine find_related_work_relationship_types ⟨none⟩ envDup ctxPlain [issueA]
    [⟨issueA, 9 / 10, "same work", "duplicate"⟩] rfl ?_
    (⟨issueA, 9 / 10, "same work", "duplicate"⟩ : RelatedWork)
    (List.mem_singleton.mpr rfl)
  intro req result h1 items h2 e h3
  have hres : result = ⟨some (.items [.entry entryDup])⟩ := by
    injection h1 with h'
    exact h'.symm
  subst hres
  have hitems : items = [.entry entryDup] := by
    injection h2 with h'
    cases h'
    rfl
  subst hitems
  simp at h3
  subst h3
  right; left; rfl

/-- Helper: the dict-comprehension lookup succeeds exactly when some
supplied candidate carries the id. -/
theorem issue_lookup_isSome (cands : List Candidate) (iid : String) :
    (issue_lookup cands iid).isSome = cands.any (fun c => c.issue.id == iid) := by
  rw [issue_lookup]
  cases hf : cands.reverse.find? (fun c => c.issue.id == iid) with
  | none =>
    simp only [Option.map_none', Option.isSome_none]
    symm
    rw [List.any_eq_false]
    intro c hc
    have hall := List.find?_eq_none.mp hf
    exact hall c (List.mem_reverse.mpr hc)
  | some c =>
    simp only [Option.map_some', Option.isSome_some]
    symm
    rw [List.any_eq_true]
    have hcp := List.find?_some hf
    exact ⟨c, List.mem_reverse.mp (List.mem_of_find?_eq_some hf), hcp⟩

/-- Helper: the loop body of `_parse_llm_result` produces a result for
an item exactly when `entry_matches` accepts it. -/
theorem parse_item_isSome_iff (cands : List Candidate) (it : LLMItem) :
    (parse_item cands it).isSome = entry_matches cands it := by
  cases it with
  | notDict => rfl
  | entry e =>
    cases hiid : e.issue_id with
    | none => simp [parse_item, entry_matches, hiid]
    | some iid =>
      simp only [parse_item, entry_matches, hiid]
      by_cases hemp : iid = ""
      · simp [hemp]
      · rw [if_neg hemp]
        have h1 : (iid == "") = false := by
          simp [hemp]
        rw [h1]
        simp only [Bool.not_false, Bool.true_and]
        rw [← issue_lookup_isSome]
        cases issue_lookup cands iid <;> rfl

/-- Helper: the length of a `filterMap` equals the number of inputs on
which the function fires. -/
theorem length_filterMap_eq {α β : Type} (f : α → Option β) (l : List α) :
    (l.filterMap f).length = (l.filter (fun x => (f x).isSome)).length := by
  induction l with
  | nil => rfl
  | cons a t ih =>
    cases hf : f a <;>
      simp [List.filterMap_cons, List.filter_cons, hf, ih]

/-- CLAIM C8 — `_parse_llm_result` drops, without error, every response
entry that is not a dict, lacks a truthy `issue_id`, or names no
supplied candidate: each produced result refers to a supplied
candidate's issue, and the number of results equals the number of
matching entries (so non-matching entries contribute nothing and every
matching entry contributes exactly one result). -/
theorem parse_llm_result_drops_unmatched (result : ParsedResult)
    (cands : List Candidate) (items : List LLMItem)
    (h : result.related = some (.items items)) :
    (∀ r ∈ parse_llm_result result cands, ∃ c ∈ cands, r.issue = c.issue)
    ∧ (parse_llm_result result cands).length =
        (items.filter (entry_matches cands)).length := by
  have hp : parse_llm_result result cands = items.filterMap (parse_item cands) := by
    obtain ⟨rel⟩ := result
    dsimp only at h
    subst h
    rfl
  constructor
  · intro r hr
    rw [hp] at hr
    rcases List.mem_filterMap.mp hr with ⟨it, hit, hpi⟩
    cases it with
    | notDict => simp [parse_item] at hpi
    | entry e =>
      cases hiid : e.issue_id with
      | none => simp [parse_item, hiid] at hpi
      | some iid =>
        simp only [parse_item, hiid] at hpi
        split at hpi
        · simp at hpi
        · cases hlk : issue_lookup cands iid with
          | none => rw [hlk] at hpi; simp at hpi
          | some iss =>
            rw [hlk] at hpi
            have hmem : ∃ c ∈ cands, c.issue = iss := by
              rw [issue_lookup] at hlk
              rcases Option.map_eq_some'.mp hlk with ⟨c, hfind, hci⟩
              exact ⟨c, List.mem_reverse.mp (List.mem_of_find?_eq_some hfind), hci⟩
            rcases hmem with ⟨c, hc, hci⟩
            refine ⟨c, hc, ?_⟩
            cases hpi
            exact hci.symm
  · rw [hp, length_filterMap_eq]
    have hfun : (fun x => (parse_item cands x).isSome) = entry_matches cands :=
      funext (parse_item_isSome_iff cands)
    rw [hfun]

/-- Witness for `parse_llm_result_drops_unmatched`: of the four items
in `itemsW` (matching id, unknown id, non-dict, missing id) exactly the
matching one survives. -/
theorem parse_llm_result_drops_unmatched_witness :
    (∀ r ∈ parse_llm_result resW candsW, ∃ c ∈ candsW, r.issue = c.issue)
    ∧ (parse_llm_result resW candsW).length =
        (itemsW.filter (entry_matches candsW)).length :=
  parse_llm_result_drops_unmatched resW candsW itemsW rfl

end ActivityTracker
